import Mathlib

/-!
Shallow embedding of the XCM configuration of the Integritee parachain
(`polkadot-parachains/shell-runtime/src/xcm_config.rs`) and of the
dual-mode consensus scaffolding (`polkadot-parachains/src/service.rs`),
together with theorems settling the claims of the specification about them.

Machine integers (`u8` parents, `u32` parachain ids, `u64` weight
components) are modelled as `Nat`; none of the verified operations
performs arithmetic that can overflow, they only compare and
checked-subtract.
-/

/-! ## Location data model (xcm v3 `MultiLocation`) -/

/-- One path segment (`Junction`). The variants actually inspected by the
code under verification are `Parachain` and `GeneralKey`; the remaining
xcm variants are collapsed into `AccountId32` (used by the account
converter) and an uninterpreted `other` tag so that quantified statements still
range over locations the code would reject. -/
inductive Junction where
  | Parachain : Nat → Junction
  | GeneralKey : Nat → List Nat → Junction
  | AccountId32 : Option Nat → List Nat → Junction
  | other : Nat → Junction
  deriving DecidableEq, Repr

/-- Interior path of a `MultiLocation` (xcm v3 `Junctions`): `Here` or
one to eight ordered junctions. -/
inductive Junctions where
  | Here : Junctions
  | X1 : Junction → Junctions
  | X2 : Junction → Junction → Junctions
  | X3 : Junction → Junction → Junction → Junctions
  | X4 : Junction → Junction → Junction → Junction → Junctions
  | X5 : Junction → Junction → Junction → Junction → Junction → Junctions
  | X6 : Junction → Junction → Junction → Junction → Junction → Junction → Junctions
  | X7 : Junction → Junction → Junction → Junction → Junction → Junction → Junction → Junctions
  | X8 : Junction → Junction → Junction → Junction → Junction → Junction → Junction → Junction →
      Junctions
  deriving DecidableEq, Repr

/-- `MultiLocation`: ascend count (`parents : u8`) plus interior segments.
Structural equality only, as in the source (the source derives `PartialEq`). -/
structure MultiLocation where
  parents : Nat
  interior : Junctions
  deriving DecidableEq, Repr

namespace MultiLocation

/-- `MultiLocation::here()`: zero hops, no segments. -/
def here : MultiLocation := ⟨0, .Here⟩

/-- `MultiLocation::parent()`: one hop up, no segments. -/
def parent : MultiLocation := ⟨1, .Here⟩

/-- `Junctions::first()` as used through `MultiLocation::first_interior()`:
the first junction of the interior, if any. -/
def first_interior : MultiLocation → Option Junction
  | ⟨_, .Here⟩ => none
  | ⟨_, .X1 a⟩ => some a
  | ⟨_, .X2 a _⟩ => some a
  | ⟨_, .X3 a _ _⟩ => some a
  | ⟨_, .X4 a _ _ _⟩ => some a
  | ⟨_, .X5 a _ _ _ _⟩ => some a
  | ⟨_, .X6 a _ _ _ _ _⟩ => some a
  | ⟨_, .X7 a _ _ _ _ _ _⟩ => some a
  | ⟨_, .X8 a _ _ _ _ _ _ _⟩ => some a

end MultiLocation

/-! ## Assets -/

/-- xcm `AssetId`: a concrete location or an abstract byte name. -/
inductive AssetId where
  | Concrete : MultiLocation → AssetId
  | Abstract : List Nat → AssetId
  deriving DecidableEq, Repr

/-- xcm `Fungibility`. -/
inductive Fungibility where
  | Fungible : Nat → Fungibility
  | NonFungible : Nat → Fungibility
  deriving DecidableEq, Repr

/-- xcm `MultiAsset`: identifier plus fungibility. -/
structure MultiAsset where
  id : AssetId
  fungibility : Fungibility
  deriving DecidableEq, Repr

/-! ## CurrencyIdConvert (xcm_config.rs lines 61-144) -/

/-- The 32-byte key `*b"TEER0000000000000000000000000000"`. -/
def TEER_KEY : List Nat := [84, 69, 69, 82] ++ List.replicate 28 48

/-- `teer_general_key()`: `GeneralKey { length: 4, data: TEER_KEY }`. -/
def teer_general_key : Junction := .GeneralKey 4 TEER_KEY

/-- The constant `TEER_GENERAL_KEY`. -/
def TEER_GENERAL_KEY : Junction := teer_general_key

/-- The single supported currency (`enum CurrencyId { TEER }`). -/
inductive CurrencyId where
  | TEER : CurrencyId
  deriving DecidableEq, Repr

namespace CurrencyIdConvert

/-- `Convert<CurrencyId, Option<MultiLocation>> for CurrencyIdConvert`:
the TEER currency maps to `(1, X2(Parachain(self_para_id), TEER_GENERAL_KEY))`.
`selfParaId` stands for `ParachainInfo::parachain_id()`, read from chain
state at call time. -/
def currencyToLocation (selfParaId : Nat) (id : CurrencyId) : Option MultiLocation :=
  match id with
  | .TEER => some ⟨1, .X2 (.Parachain selfParaId) TEER_GENERAL_KEY⟩

/-- `Convert<MultiLocation, Option<CurrencyId>> for CurrencyIdConvert`:
accepts `(1, X2(Parachain(self), TEER_GENERAL_KEY))` and
`(0, X1(TEER_GENERAL_KEY))`, nothing else. The guard structure mirrors
the two guarded match arms of the source (`parents == 1`, then `parents == 0`). -/
def locationToCurrency (selfParaId : Nat) (location : MultiLocation) : Option CurrencyId :=
  if location.parents = 1 then
    match location.interior with
    | .X2 (.Parachain paraId) junction =>
        if junction = TEER_GENERAL_KEY ∧ paraId = selfParaId then some .TEER else none
    | _ => none
  else if location.parents = 0 then
    match location.interior with
    | .X1 junction => if junction = TEER_GENERAL_KEY then some .TEER else none
    | _ => none
  else none

/-- `Convert<MultiAsset, Option<CurrencyId>> for CurrencyIdConvert`:
extracts the concrete location and delegates; abstract ids give `none`. -/
def assetToCurrency (selfParaId : Nat) (asset : MultiAsset) : Option CurrencyId :=
  match asset.id with
  | .Concrete location => locationToCurrency selfParaId location
  | .Abstract _ => none

end CurrencyIdConvert

/-- C4 (claim): the round trip holds and the intermediate location is the
relative form. Stated over every parachain id and every supported
currency. -/
theorem c4_currency_roundtrip (selfParaId : Nat) (id : CurrencyId) :
    (CurrencyIdConvert.currencyToLocation selfParaId id).bind
        (CurrencyIdConvert.locationToCurrency selfParaId) = some id ∧
    CurrencyIdConvert.currencyToLocation selfParaId id =
      some ⟨1, .X2 (.Parachain selfParaId) TEER_GENERAL_KEY⟩ := by
  cases id
  constructor
  · simp [CurrencyIdConvert.currencyToLocation, CurrencyIdConvert.locationToCurrency]
  · rfl

/-- C5 (claim): `locationToCurrency` accepts exactly the two shapes
`(1, X2(Parachain(self), TEER_GENERAL_KEY))` and
`(0, X1(TEER_GENERAL_KEY))`; in particular a matching key under a foreign
parachain id is rejected. -/
theorem c5_locationToCurrency_shapes (selfParaId : Nat) (loc : MultiLocation) :
    ((CurrencyIdConvert.locationToCurrency selfParaId loc).isSome ↔
      loc = ⟨1, .X2 (.Parachain selfParaId) TEER_GENERAL_KEY⟩ ∨
        loc = ⟨0, .X1 TEER_GENERAL_KEY⟩) ∧
    (∀ q, q ≠ selfParaId →
      CurrencyIdConvert.locationToCurrency selfParaId
        ⟨1, .X2 (.Parachain q) TEER_GENERAL_KEY⟩ = none) := by
  constructor
  · obtain ⟨p, i⟩ := loc
    unfold CurrencyIdConvert.locationToCurrency
    by_cases hp1 : p = 1
    · subst hp1
      cases i with
      | X2 a b =>
        cases a with
        | Parachain q =>
          by_cases hbk : b = TEER_GENERAL_KEY
          · subst hbk
            by_cases hq : q = selfParaId
            · subst hq
              simp
            · simp [hq, MultiLocation.mk.injEq]
          · simp [hbk, MultiLocation.mk.injEq]
        | _ => simp_all [MultiLocation.mk.injEq]
      | _ => simp_all [MultiLocation.mk.injEq]
    · by_cases hp0 : p = 0
      · subst hp0
        cases i with
        | X1 a =>
          by_cases hbk : a = TEER_GENERAL_KEY
          · subst hbk
            simp
          · simp [hbk, MultiLocation.mk.injEq]
        | _ => simp_all [MultiLocation.mk.injEq]
      · simp_all [MultiLocation.mk.injEq]
  · intro q hq
    simp [CurrencyIdConvert.locationToCurrency, hq]

/-- C5 witness: at parachain id 2015, the foreign id 2000 with a matching
key is rejected, per the second conjunct of the theorem. -/
theorem c5_locationToCurrency_shapes_witness :
    CurrencyIdConvert.locationToCurrency 2015
      ⟨1, .X2 (.Parachain 2000) TEER_GENERAL_KEY⟩ = none :=
  (c5_locationToCurrency_shapes 2015 ⟨1, .X2 (.Parachain 2000) TEER_GENERAL_KEY⟩).2
    2000 (by decide)

/-! ## Reserve resolution (xcm_config.rs lines 205-225 and 363-374) -/

/-- Modelled from the spec: the relative-reserve computation
(`orml_traits::location`, the external `RelativeReserveProvider` the
source delegates to, spec section 4.3 "distance from local scope"
arithmetic). `chain_part` keeps only the chain scope of a location:
a sibling parachain, the parent, or a child parachain; anything deeper
than one hop up has no relative chain part. -/
def MultiLocation.chain_part (loc : MultiLocation) : Option MultiLocation :=
  match loc.parents, loc.first_interior with
  | 1, some (.Parachain id) => some ⟨1, .X1 (.Parachain id)⟩
  | 1, _ => some MultiLocation.parent
  | 0, some (.Parachain id) => some ⟨0, .X1 (.Parachain id)⟩
  | _, _ => none

/-- Modelled from the spec: `RelativeReserveProvider::reserve` from
`orml_traits` (external to this repository), which the source wraps.
For a concrete asset it returns the chain part of the asset location,
defaulting to the identity location for purely local assets; abstract
asset ids have no reserve. -/
def RelativeReserveProvider.reserve (asset : MultiAsset) : Option MultiLocation :=
  match asset.id with
  | .Concrete location => some (location.chain_part.getD MultiLocation.here)
  | .Abstract _ => none

/-- The closure body of the `map` in `AbsoluteAndRelativeReserve::reserve`:
an absolute self view collapses to the identity location. -/
def AbsoluteAndRelativeReserve.canonicalize (absolute relative_reserve : MultiLocation) :
    MultiLocation :=
  if relative_reserve = absolute then MultiLocation.here else relative_reserve

/-- `AbsoluteAndRelativeReserve::<AbsoluteMultiLocation>::reserve`:
the relative reserve, with the absolute self view canonicalized. The
`absolute` argument stands for the `AbsoluteMultiLocation: Get<MultiLocation>`
type parameter. -/
def AbsoluteAndRelativeReserve.reserve (absolute : MultiLocation) (asset : MultiAsset) :
    Option MultiLocation :=
  (RelativeReserveProvider.reserve asset).map (AbsoluteAndRelativeReserve.canonicalize absolute)

/-- The parameter type `SelfLocationAbsolute`:
`(parents: 1, X1(Parachain(ParachainInfo::parachain_id())))`. -/
def SelfLocationAbsolute (selfParaId : Nat) : MultiLocation :=
  ⟨1, .X1 (.Parachain selfParaId)⟩

/-- The parameter type `SelfLocation`: `MultiLocation::here()`. -/
def SelfLocation : MultiLocation := MultiLocation.here

/-- C6 (claim): a relative reserve equal to the absolute self-location is
replaced by the identity location; an asset at the absolute self-location
and one at the identity location resolve to the identical reserve; and
the canonicalization step is idempotent. -/
theorem c6_reserve_canonicalization (selfParaId : Nat) :
    (∀ asset : MultiAsset,
      RelativeReserveProvider.reserve asset = some (SelfLocationAbsolute selfParaId) →
      AbsoluteAndRelativeReserve.reserve (SelfLocationAbsolute selfParaId) asset =
        some MultiLocation.here) ∧
    (∀ f f' : Fungibility,
      AbsoluteAndRelativeReserve.reserve (SelfLocationAbsolute selfParaId)
          ⟨.Concrete (SelfLocationAbsolute selfParaId), f⟩ =
        AbsoluteAndRelativeReserve.reserve (SelfLocationAbsolute selfParaId)
          ⟨.Concrete MultiLocation.here, f'⟩ ∧
      AbsoluteAndRelativeReserve.reserve (SelfLocationAbsolute selfParaId)
          ⟨.Concrete (SelfLocationAbsolute selfParaId), f⟩ = some MultiLocation.here) ∧
    (∀ r : MultiLocation,
      AbsoluteAndRelativeReserve.canonicalize (SelfLocationAbsolute selfParaId)
          (AbsoluteAndRelativeReserve.canonicalize (SelfLocationAbsolute selfParaId) r) =
        AbsoluteAndRelativeReserve.canonicalize (SelfLocationAbsolute selfParaId) r) := by
  refine ⟨?_, ?_, ?_⟩
  · intro asset h
    simp [AbsoluteAndRelativeReserve.reserve, h, AbsoluteAndRelativeReserve.canonicalize]
  · intro f f'
    constructor
    · simp [AbsoluteAndRelativeReserve.reserve, RelativeReserveProvider.reserve,
        MultiLocation.chain_part, MultiLocation.first_interior, SelfLocationAbsolute,
        MultiLocation.here, AbsoluteAndRelativeReserve.canonicalize]
    · simp [AbsoluteAndRelativeReserve.reserve, RelativeReserveProvider.reserve,
        MultiLocation.chain_part, MultiLocation.first_interior, SelfLocationAbsolute,
        AbsoluteAndRelativeReserve.canonicalize]
  · intro r
    unfold AbsoluteAndRelativeReserve.canonicalize
    by_cases h : r = SelfLocationAbsolute selfParaId
    · simp [h, SelfLocationAbsolute, MultiLocation.here]
    · simp [h]

/-- C6 witness: at parachain id 2015 with a fungible amount, the asset at
the absolute self-location resolves to the identity reserve. -/
theorem c6_reserve_canonicalization_witness :
    AbsoluteAndRelativeReserve.reserve (SelfLocationAbsolute 2015)
      ⟨.Concrete (SelfLocationAbsolute 2015), .Fungible 10⟩ = some MultiLocation.here :=
  (c6_reserve_canonicalization 2015).1 ⟨.Concrete (SelfLocationAbsolute 2015), .Fungible 10⟩
    (by decide)

/-- C9 (claim): the canonicalization step never turns a relative reserve
other than the absolute self-location into something else, never turns a
`some` into `none`, and the composed resolver is `none` exactly when the
relative-reserve computation is (as for abstract asset ids). -/
theorem c9_reserve_passthrough (selfParaId : Nat) (asset : MultiAsset) :
    (∀ r, RelativeReserveProvider.reserve asset = some r →
        r ≠ SelfLocationAbsolute selfParaId →
        AbsoluteAndRelativeReserve.reserve (SelfLocationAbsolute selfParaId) asset = some r) ∧
    (AbsoluteAndRelativeReserve.reserve (SelfLocationAbsolute selfParaId) asset = none ↔
      RelativeReserveProvider.reserve asset = none) ∧
    (∀ (name : List Nat) (f : Fungibility),
      RelativeReserveProvider.reserve ⟨.Abstract name, f⟩ = none) := by
  refine ⟨?_, ?_, ?_⟩
  · intro r h hr
    simp [AbsoluteAndRelativeReserve.reserve, h, AbsoluteAndRelativeReserve.canonicalize, hr]
  · cases hrel : RelativeReserveProvider.reserve asset <;>
      simp [AbsoluteAndRelativeReserve.reserve, hrel]
  · intro name f
    simp [RelativeReserveProvider.reserve]

/-- C9 witness: a sibling-parachain reserve (parachain 2000 seen from
parachain 2015) passes through the canonicalization unchanged. -/
theorem c9_reserve_passthrough_witness :
    AbsoluteAndRelativeReserve.reserve (SelfLocationAbsolute 2015)
      ⟨.Concrete ⟨1, .X2 (.Parachain 2000) TEER_GENERAL_KEY⟩, .Fungible 7⟩ =
      some ⟨1, .X1 (.Parachain 2000)⟩ :=
  (c9_reserve_passthrough 2015
      ⟨.Concrete ⟨1, .X2 (.Parachain 2000) TEER_GENERAL_KEY⟩, .Fungible 7⟩).1
    ⟨1, .X1 (.Parachain 2000)⟩ (by decide) (by decide)

/-! ## SafeCallFilter (xcm_config.rs lines 246-253) -/

/-- The aggregated runtime call type. It is generated by
`construct_runtime!` outside this file and never inspected by
`SafeCallFilter::contains`, so it is modelled as an uninterpreted index. -/
structure RuntimeCall where
  index : Nat
  deriving DecidableEq, Repr

/-- `SafeCallFilter::contains`: returns `true` for every call. -/
def SafeCallFilter.contains (_call : RuntimeCall) : Bool := true

/-- C10 (claim): the call filter applied to XCM Transact execution is
fully permissive: it excludes no call. -/
theorem c10_safe_call_filter_permissive (call : RuntimeCall) :
    SafeCallFilter.contains call = true := rfl

/-! ## Dual-mode consensus scaffolding (service.rs lines 418-520) -/

/-- A `Box<dyn FnOnce() -> R>` builder closure, modelled by its one-shot
outcome when invoked: `.ok v` returns `v`, `.error ()` models a panic
escaping the closure. -/
def Builder (R : Type) : Type := Except Unit R

/-- `enum BuildOnAccess<R>`: either an unbuilt closure behind an `Option`
(so it can be moved out with `take`) or the built value. -/
inductive BuildOnAccess (R : Type) where
  | Uninitialized : Option (Builder R) → BuildOnAccess R
  | Initialized : R → BuildOnAccess R

/-- `BuildOnAccess::get_mut`, instrumented: the triple holds the returned
value (`none` models a panic escaping the call), the state visible after
the call (what a later caller finds), and the number of builder
invocations made during the call.

In `*self = Self::Initialized((f.take().unwrap())());` the `take` empties
the option in place before the closure runs, so an `Uninitialized(None)`
slot panics on `unwrap` without invoking anything, and a panicking
closure leaves `Uninitialized(None)` behind; on success the loop comes
around to the `Initialized` arm and returns the freshly built value. -/
def BuildOnAccess.get_mut {R : Type} : BuildOnAccess R → Option R × BuildOnAccess R × Nat
  | .Uninitialized none => (none, .Uninitialized none, 0)
  | .Uninitialized (some (.error ())) => (none, .Uninitialized none, 1)
  | .Uninitialized (some (.ok v)) => (some v, .Initialized v, 1)
  | .Initialized r => (some r, .Initialized r, 0)

/-- A sequence of `n` successive `get_mut` accesses against one
`BuildOnAccess` value: final state and total builder invocations. -/
def BuildOnAccess.accessSeq {R : Type} (s : BuildOnAccess R) : Nat → BuildOnAccess R × Nat
  | 0 => (s, 0)
  | n + 1 =>
      let step := s.get_mut
      let rest := BuildOnAccess.accessSeq step.2.1 n
      (rest.1, step.2.2 + rest.2)

/-- Accessing an already initialized value builds nothing, ever. -/
theorem accessSeq_initialized {R : Type} (v : R) (n : Nat) :
    BuildOnAccess.accessSeq (.Initialized v) n = (.Initialized v, 0) := by
  induction n with
  | zero => rfl
  | succ n ih => simp [BuildOnAccess.accessSeq, BuildOnAccess.get_mut, ih]

/-- C2 (claim): with a successful builder, the first access invokes the
builder once and swaps in the built value, later accesses return that
value with no further invocation, and any nonempty access sequence
invokes the builder exactly once in total. -/
theorem c2_lazy_builder_at_most_once {R : Type} (v : R) (n : Nat) (h : 1 ≤ n) :
    (BuildOnAccess.Uninitialized (some (.ok v))).get_mut = (some v, .Initialized v, 1) ∧
    (BuildOnAccess.Initialized v).get_mut = (some v, .Initialized v, 0) ∧
    BuildOnAccess.accessSeq (.Uninitialized (some (.ok v))) n = (.Initialized v, 1) := by
  refine ⟨rfl, rfl, ?_⟩
  obtain ⟨m, rfl⟩ : ∃ m, n = m + 1 := ⟨n - 1, by omega⟩
  simp [BuildOnAccess.accessSeq, BuildOnAccess.get_mut, accessSeq_initialized]

/-- C2 witness: three accesses against a lazily built `42` return it and
invoke the builder exactly once. -/
theorem c2_lazy_builder_at_most_once_witness :
    (BuildOnAccess.Uninitialized (R := Nat) (some (.ok 42))).get_mut =
      (some 42, .Initialized 42, 1) ∧
    (BuildOnAccess.Initialized (42 : Nat)).get_mut = (some 42, .Initialized 42, 0) ∧
    BuildOnAccess.accessSeq (.Uninitialized (R := Nat) (some (.ok 42))) 3 =
      (.Initialized 42, 1) :=
  c2_lazy_builder_at_most_once 42 3 (by decide)

/-- C3 counterexample: a panicking builder does NOT leave the structure in
an intact `Uninitialized` state holding a usable builder. The first access
invokes the builder, the panic escapes, and the state left behind is
`Uninitialized(None)`; the second access then fails itself (the `unwrap`
of the emptied option panics) instead of retrying the build. -/
theorem c3_failed_build_counterexample :
    (BuildOnAccess.Uninitialized (R := Nat) (some (.error ()))).get_mut =
      (none, .Uninitialized none, 1) ∧
    (BuildOnAccess.Uninitialized (R := Nat) none).get_mut = (none, .Uninitialized none, 0) :=
  ⟨rfl, rfl⟩

/-- C3 amended: if the builder panics on first-time construction, the
structure is left as `Uninitialized(None)` — the builder was already
moved out by `take` — and a later access does not retry the build: it
panics on the emptied builder slot, invoking no builder. -/
theorem c3_failed_build_leaves_empty_slot {R : Type} (b : Builder R) (h : b = .error ()) :
    (BuildOnAccess.Uninitialized (some b)).get_mut = (none, .Uninitialized none, 1) ∧
    (BuildOnAccess.Uninitialized (R := R) none).get_mut = (none, .Uninitialized none, 0) := by
  subst h
  exact ⟨rfl, rfl⟩

/-- C3 amended witness: the panicking builder over `Nat`. -/
theorem c3_failed_build_leaves_empty_slot_witness :
    (BuildOnAccess.Uninitialized (R := Nat) (some (.error ()))).get_mut =
      (none, .Uninitialized none, 1) ∧
    (BuildOnAccess.Uninitialized (R := Nat) none).get_mut = (none, .Uninitialized none, 0) :=
  c3_failed_build_leaves_empty_slot (.error ()) rfl

/-- `Result::unwrap_or` on the outcome of the runtime-api capability probe
(`has_api::<dyn AuraApi<..>>(parent_hash)` returns `Result<bool, ApiError>`). -/
def unwrap_or {E A : Type} : Except E A → A → A
  | .ok a, _ => a
  | .error _, d => d

/-- Which of the two consensus strategies a call was dispatched to. -/
inductive ConsensusStrategy where
  | aura : ConsensusStrategy
  | relayChain : ConsensusStrategy
  deriving DecidableEq, Repr

/-- `WaitForAuraConsensus`: the candidate-producing selector. `C` stands
for the boxed `dyn ParachainConsensus<Block>` strategy objects; the
`Arc<Mutex<..>>` wrappers serialize access and are not part of the
per-call dispatch logic modelled here. -/
structure WaitForAuraConsensus (C : Type) where
  aura_consensus : BuildOnAccess C
  relay_chain_consensus : C

/-- `WaitForAuraConsensus::produce_candidate`: probes
`has_api` at the parent hash, treats a probe failure as `false` via
`unwrap_or(false)`, and dispatches to the lazily built Aura strategy or
the relay-chain strategy. The probe outcome for the given parent is the
`has_api` argument; the result is the dispatched strategy and the
selector state left behind. -/
def WaitForAuraConsensus.produce_candidate {C E : Type}
    (s : WaitForAuraConsensus C) (has_api : Except E Bool) :
    ConsensusStrategy × WaitForAuraConsensus C :=
  if unwrap_or has_api false then
    (.aura, { s with aura_consensus := s.aura_consensus.get_mut.2.1 })
  else
    (.relayChain, s)

/-- `Verifier`: the block-verifying selector, with its own independent
`BuildOnAccess` for the Aura verifier (`V` stands for the boxed
`dyn VerifierT<Block>` objects). -/
structure Verifier (V : Type) where
  aura_verifier : BuildOnAccess V
  relay_chain_verifier : V

/-- `Verifier::verify`: probes `has_api` at the parent hash of the block
being imported, treats a probe failure as `false` via `unwrap_or(false)`,
and dispatches to the lazily built Aura verifier or the relay-chain
verifier. -/
def Verifier.verify {V E : Type} (s : Verifier V) (has_api : Except E Bool) :
    ConsensusStrategy × Verifier V :=
  if unwrap_or has_api false then
    (.aura, { s with aura_verifier := s.aura_verifier.get_mut.2.1 })
  else
    (.relayChain, s)

/-- C1 (claim): both the candidate-producing path and the block-verifying
path dispatch to Aura exactly when the capability probe reports the
capability present, and to the relay-chain strategy when it reports it
absent; a failed probe dispatches to the relay chain without panicking
and leaves the selector state untouched, so the decision holds for that
call only. -/
theorem c1_selector_dispatch {C V E : Type}
    (p : WaitForAuraConsensus C) (v : Verifier V) (probe : Except E Bool) :
    (probe = .ok true →
      (p.produce_candidate probe).1 = .aura ∧ (v.verify probe).1 = .aura) ∧
    (probe = .ok false →
      (p.produce_candidate probe).1 = .relayChain ∧ (v.verify probe).1 = .relayChain) ∧
    (∀ e : E, probe = .error e →
      p.produce_candidate probe = (.relayChain, p) ∧ v.verify probe = (.relayChain, v)) := by
  refine ⟨?_, ?_, ?_⟩
  · rintro rfl
    constructor <;> rfl
  · rintro rfl
    constructor <;> rfl
  · rintro e rfl
    constructor <;> rfl

/-- C1 witness: with a failed probe (state unavailable for the parent),
both paths fall back to the relay-chain strategy and keep their state. -/
theorem c1_selector_dispatch_witness :
    WaitForAuraConsensus.produce_candidate (C := Nat)
        ⟨.Initialized 5, 7⟩ (.error (0 : Nat)) = (.relayChain, ⟨.Initialized 5, 7⟩) ∧
    Verifier.verify (V := Nat) ⟨.Initialized 5, 7⟩ (.error (0 : Nat)) =
      (.relayChain, ⟨.Initialized 5, 7⟩) :=
  (c1_selector_dispatch ⟨.Initialized 5, 7⟩ ⟨.Initialized 5, 7⟩ (.error 0)).2.2 0 rfl

/-! ## Admission pipeline (xcm_config.rs lines 227-244) -/

/-- Substrate `Weight`: two `u64` components. -/
structure Weight where
  ref_time : Nat
  proof_size : Nat
  deriving DecidableEq, Repr

/-- The zero weight. -/
def Weight.zero : Weight := ⟨0, 0⟩

/-- `Weight::checked_sub`: component-wise checked subtraction; `none` if
either component would underflow. -/
def Weight.checked_sub (a rhs : Weight) : Option Weight :=
  if rhs.ref_time ≤ a.ref_time then
    if rhs.proof_size ≤ a.proof_size then
      some ⟨a.ref_time - rhs.ref_time, a.proof_size - rhs.proof_size⟩
    else none
  else none

/-- `Weight::all_gte`: both components at least as large. -/
def Weight.all_gte (a rhs : Weight) : Bool :=
  decide (rhs.ref_time ≤ a.ref_time) && decide (rhs.proof_size ≤ a.proof_size)

/-- xcm `WeightLimit` of a `BuyExecution`. -/
inductive WeightLimit where
  | Unlimited : WeightLimit
  | Limited : Weight → WeightLimit
  deriving DecidableEq, Repr

/-- xcm `MultiAssetFilter` (the `assets` field of reserve instructions). -/
inductive MultiAssetFilter where
  | Definite : List MultiAsset → MultiAssetFilter
  | Wild : MultiAssetFilter
  deriving DecidableEq, Repr

/-- The xcm v3 instructions the configured barrier components inspect,
plus an uninterpreted `other` tag standing for every remaining instruction (the
barriers treat all of those alike). `QueryResponse` carries query id,
response payload tag, max weight and querier; the reserve-transfer
instructions carry their asset payload, the reserve/destination location
and the nested program. -/
inductive Instruction where
  | WithdrawAsset : List MultiAsset → Instruction
  | ReserveAssetDeposited : List MultiAsset → Instruction
  | ReceiveTeleportedAsset : List MultiAsset → Instruction
  | ClaimAsset : List MultiAsset → MultiLocation → Instruction
  | ClearOrigin : Instruction
  | BuyExecution : MultiAsset → WeightLimit → Instruction
  | QueryResponse : Nat → Nat → Weight → Option MultiLocation → Instruction
  | InitiateReserveWithdraw : MultiAssetFilter → MultiLocation → List Instruction → Instruction
  | DepositReserveAsset : MultiAssetFilter → MultiLocation → List Instruction → Instruction
  | TransferReserveAsset : List MultiAsset → MultiLocation → List Instruction → Instruction
  | SubscribeVersion : Nat → Weight → Instruction
  | UnsubscribeVersion : Instruction
  | other : Nat → Instruction

/-- The arguments every `ShouldExecute::should_execute` receives: origin,
message (behind `&mut`), the weighed maximum weight of the message, and
the weight credit (behind `&mut`). -/
structure BarrierArgs where
  origin : MultiLocation
  message : List Instruction
  max_weight : Weight
  weight_credit : Weight

/-- One barrier: `Ok` carries the message and weight credit as left after
the call (the `&mut` slots), `Err` is a denial. Each of the components
configured here mutates the slots only on its `Ok` path, so a denial
leaving the arguments unchanged is faithful. -/
def ShouldExecute : Type := BarrierArgs → Except Unit (List Instruction × Weight)

/-- Modelled from the spec: the deny-list predicate of
`parachains_common::xcm_config::DenyReserveTransferToRelayChain`
(external to this repository): an instruction is deny-listed when it is a
reserve transfer whose reserve/destination is the immediate parent
(relay-chain) scope `(parents: 1, Here)`. -/
def denylisted : Instruction → Bool
  | .InitiateReserveWithdraw _ ⟨1, .Here⟩ _ => true
  | .DepositReserveAsset _ ⟨1, .Here⟩ _ => true
  | .TransferReserveAsset _ ⟨1, .Here⟩ _ => true
  | _ => false

/-- Modelled from the spec: `DenyReserveTransferToRelayChain::should_execute`
(external): denies when any instruction of the message is deny-listed;
otherwise passes (its second check only emits a log line). -/
def DenyReserveTransferToRelayChain.should_execute : ShouldExecute := fun args =>
  if args.message.any denylisted then .error ()
  else .ok (args.message, args.weight_credit)

/-- Modelled from the spec: `xcm_builder::TakeWeightCredit` (external),
fallback predicate 1: `*weight_credit = weight_credit.checked_sub(&max_weight).ok_or(())?;`
— it debits the credit on success and leaves it untouched on failure. -/
def TakeWeightCredit.should_execute : ShouldExecute := fun args =>
  match args.weight_credit.checked_sub args.max_weight with
  | some credit => .ok (args.message, credit)
  | none => .error ()

/-- First instruction accepted by top-level paid execution: one that puts
assets into the holding register. -/
def allowedFirstInstr : Instruction → Bool
  | .ReceiveTeleportedAsset _ => true
  | .WithdrawAsset _ => true
  | .ReserveAssetDeposited _ => true
  | .ClaimAsset _ _ => true
  | _ => false

/-- The tail scan of top-level paid execution: skip leading `ClearOrigin`
instructions, then require a `BuyExecution` whose declared limit covers
`max_weight` (capping it to `max_weight` in place) or is `Unlimited`
(bounding it to `max_weight`); anything else, or running out of
instructions, fails. -/
def capBuyExecution (max_weight : Weight) : List Instruction → Option (List Instruction)
  | [] => none
  | .ClearOrigin :: rest => (capBuyExecution max_weight rest).map (.ClearOrigin :: ·)
  | .BuyExecution fees (.Limited w) :: rest =>
      if w.all_gte max_weight then some (.BuyExecution fees (.Limited max_weight) :: rest)
      else none
  | .BuyExecution fees .Unlimited :: rest =>
      some (.BuyExecution fees (.Limited max_weight) :: rest)
  | _ :: _ => none

/-- Modelled from the spec: `xcm_builder::AllowTopLevelPaidExecutionFrom<T>`
(external), fallback predicate 2: origins in `T`, a holding-register
instruction first, then (after any `ClearOrigin`s) a `BuyExecution`
paying for at least the weighed `max_weight`. The weight credit is never
touched. -/
def AllowTopLevelPaidExecutionFrom.should_execute
    (contains : MultiLocation → Bool) : ShouldExecute := fun args =>
  if contains args.origin then
    match args.message with
    | [] => .error ()
    | i :: rest =>
        if allowedFirstInstr i then
          match capBuyExecution args.max_weight rest with
          | some rest2 => .ok (i :: rest2, args.weight_credit)
          | none => .error ()
        else .error ()
  else .error ()

/-- Modelled from the spec: `xcm_builder::AllowKnownQueryResponses`
(external), fallback predicate 3: the first instruction is a
`QueryResponse` for a query the response handler (`PolkadotXcm`) is still
expecting; `expecting_response` stands for that runtime query. -/
def AllowKnownQueryResponses.should_execute
    (expecting_response : MultiLocation → Nat → Option MultiLocation → Bool) :
    ShouldExecute := fun args =>
  match args.message.head? with
  | some (.QueryResponse query_id _ _ querier) =>
      if expecting_response args.origin query_id querier then
        .ok (args.message, args.weight_credit)
      else .error ()
  | _ => .error ()

/-- Modelled from the spec: `xcm_builder::AllowSubscriptionsFrom<T>`
(external), fallback predicate 4: the message is exactly one version
subscription request (or cancellation) from an origin in `T`. -/
def AllowSubscriptionsFrom.should_execute
    (contains : MultiLocation → Bool) : ShouldExecute := fun args =>
  if contains args.origin then
    match args.message with
    | [.SubscribeVersion _ _] => .ok (args.message, args.weight_credit)
    | [.UnsubscribeVersion] => .ok (args.message, args.weight_credit)
    | _ => .error ()
  else .error ()

/-- `frame_support::traits::Everything::contains` on locations. -/
def Everything.contains (_loc : MultiLocation) : Bool := true

/-- Modelled from the spec: the `ShouldExecute` tuple instance (external):
evaluate the components in order, first `Ok` wins, all failing denies.
The configured components leave the `&mut` arguments unchanged on their
failure path, so passing `args` unchanged to the next component is
faithful. -/
def tryBarriers : List ShouldExecute → ShouldExecute
  | [], _ => .error ()
  | b :: rest, args =>
      match b args with
      | .ok r => .ok r
      | .error _ => tryBarriers rest args

/-- Modelled from the spec: `DenyThenTry<Deny, Allow>::should_execute`
(external): the deny stage runs first and its denial is final; only if it
passes does the fallback stage run, on the arguments as the deny stage
left them. -/
def DenyThenTry.should_execute (deny fallback : ShouldExecute) : ShouldExecute := fun args =>
  match deny args with
  | .error e => .error e
  | .ok (message, weight_credit) =>
      fallback { args with message := message, weight_credit := weight_credit }

/-- The configured `Barrier` type of the runtime:
`DenyThenTry<DenyReserveTransferToRelayChain, (TakeWeightCredit,
AllowTopLevelPaidExecutionFrom<Everything>, AllowKnownQueryResponses<PolkadotXcm>,
AllowSubscriptionsFrom<Everything>)>`. -/
def Barrier.should_execute
    (expecting_response : MultiLocation → Nat → Option MultiLocation → Bool) :
    ShouldExecute :=
  DenyThenTry.should_execute DenyReserveTransferToRelayChain.should_execute
    (tryBarriers
      [TakeWeightCredit.should_execute,
       AllowTopLevelPaidExecutionFrom.should_execute Everything.contains,
       AllowKnownQueryResponses.should_execute expecting_response,
       AllowSubscriptionsFrom.should_execute Everything.contains])

/-- C7 (claim): a message containing a deny-listed instruction (a reserve
transfer directed at the immediate parent scope) is denied by the
configured barrier, and the deny stage is final over ANY fallback chain:
no fallback predicate is ever consulted. -/
theorem c7_deny_has_priority
    (expecting_response : MultiLocation → Nat → Option MultiLocation → Bool)
    (args : BarrierArgs) (h : args.message.any denylisted = true) :
    Barrier.should_execute expecting_response args = .error () ∧
    ∀ fallback : ShouldExecute,
      DenyThenTry.should_execute DenyReserveTransferToRelayChain.should_execute fallback
        args = .error () := by
  have hd : DenyReserveTransferToRelayChain.should_execute args = .error () := by
    simp [DenyReserveTransferToRelayChain.should_execute, h]
  exact ⟨by simp [Barrier.should_execute, DenyThenTry.should_execute, hd],
    fun fallback => by simp [DenyThenTry.should_execute, hd]⟩

/-- C7 witness: a sibling-parachain message that pays for its own
execution (so fallback predicate 2 alone would admit it, as the second
conjunct shows) but ends in a reserve transfer to the parent is denied. -/
theorem c7_deny_has_priority_witness :
    Barrier.should_execute (fun _ _ _ => false)
      ⟨⟨1, .X1 (.Parachain 2000)⟩,
       [.WithdrawAsset [⟨.Concrete ⟨0, .X1 TEER_GENERAL_KEY⟩, .Fungible 1000⟩],
        .BuyExecution ⟨.Concrete ⟨0, .X1 TEER_GENERAL_KEY⟩, .Fungible 1000⟩ .Unlimited,
        .TransferReserveAsset [⟨.Concrete ⟨0, .X1 TEER_GENERAL_KEY⟩, .Fungible 1000⟩]
          MultiLocation.parent []],
       ⟨600000000, 393216⟩, Weight.zero⟩ = .error () ∧
    AllowTopLevelPaidExecutionFrom.should_execute Everything.contains
      ⟨⟨1, .X1 (.Parachain 2000)⟩,
       [.WithdrawAsset [⟨.Concrete ⟨0, .X1 TEER_GENERAL_KEY⟩, .Fungible 1000⟩],
        .BuyExecution ⟨.Concrete ⟨0, .X1 TEER_GENERAL_KEY⟩, .Fungible 1000⟩ .Unlimited,
        .TransferReserveAsset [⟨.Concrete ⟨0, .X1 TEER_GENERAL_KEY⟩, .Fungible 1000⟩]
          MultiLocation.parent []],
       ⟨600000000, 393216⟩, Weight.zero⟩ =
      .ok ([.WithdrawAsset [⟨.Concrete ⟨0, .X1 TEER_GENERAL_KEY⟩, .Fungible 1000⟩],
            .BuyExecution ⟨.Concrete ⟨0, .X1 TEER_GENERAL_KEY⟩, .Fungible 1000⟩
              (.Limited ⟨600000000, 393216⟩),
            .TransferReserveAsset [⟨.Concrete ⟨0, .X1 TEER_GENERAL_KEY⟩, .Fungible 1000⟩]
              MultiLocation.parent []], Weight.zero) :=
  ⟨(c7_deny_has_priority (fun _ _ _ => false)
      ⟨⟨1, .X1 (.Parachain 2000)⟩,
       [.WithdrawAsset [⟨.Concrete ⟨0, .X1 TEER_GENERAL_KEY⟩, .Fungible 1000⟩],
        .BuyExecution ⟨.Concrete ⟨0, .X1 TEER_GENERAL_KEY⟩, .Fungible 1000⟩ .Unlimited,
        .TransferReserveAsset [⟨.Concrete ⟨0, .X1 TEER_GENERAL_KEY⟩, .Fungible 1000⟩]
          MultiLocation.parent []],
       ⟨600000000, 393216⟩, Weight.zero⟩ rfl).1, rfl⟩

/-- C8 (claim): with zero prepaid weight credit and a nonzero weighed
message that top-level paid execution accepts, the pipeline admits the
message through fallback predicate 2 and the weight credit is left
unchanged (zero): the non-matching take-weight-credit predicate debits
nothing, because its checked subtraction fails before any assignment. -/
theorem c8_paid_execution_leaves_credit
    (expecting_response : MultiLocation → Nat → Option MultiLocation → Bool)
    (args : BarrierArgs) (message2 : List Instruction)
    (hdeny : args.message.any denylisted = false)
    (hcredit : args.weight_credit = Weight.zero)
    (hmax : args.max_weight ≠ Weight.zero)
    (hallow : AllowTopLevelPaidExecutionFrom.should_execute Everything.contains args =
      .ok (message2, args.weight_credit)) :
    Barrier.should_execute expecting_response args = .ok (message2, Weight.zero) ∧
    TakeWeightCredit.should_execute args = .error () := by
  have hsub : Weight.checked_sub args.weight_credit args.max_weight = none := by
    rw [hcredit]
    rcases hw : args.max_weight with ⟨rt, ps⟩
    rw [hw] at hmax
    have hne : rt ≠ 0 ∨ ps ≠ 0 := by
      by_contra hcon
      push_neg at hcon
      exact hmax (by simp [Weight.zero, hcon.1, hcon.2])
    unfold Weight.checked_sub
    simp only [Weight.zero, Nat.le_zero]
    rcases hne with hz | hz
    · simp [hz]
    · by_cases h0 : rt = 0 <;> simp [h0, hz]
  have htake : TakeWeightCredit.should_execute args = .error () := by
    simp only [TakeWeightCredit.should_execute, hsub]
  rw [hcredit] at hallow
  have hd : DenyReserveTransferToRelayChain.should_execute args =
      .ok (args.message, args.weight_credit) := by
    simp [DenyReserveTransferToRelayChain.should_execute, hdeny]
  refine ⟨?_, htake⟩
  unfold Barrier.should_execute
  simp only [DenyThenTry.should_execute, hd]
  show tryBarriers _ args = _
  simp only [tryBarriers, htake, hallow]

/-- C8 witness: a sibling-parachain message `[WithdrawAsset, BuyExecution
Unlimited]` with zero credit and a two-instruction weighed weight is
admitted with the credit still zero, while take-weight-credit alone
denies. -/
theorem c8_paid_execution_leaves_credit_witness :
    Barrier.should_execute (fun _ _ _ => false)
      ⟨⟨1, .X1 (.Parachain 2000)⟩,
       [.WithdrawAsset [⟨.Concrete ⟨0, .X1 TEER_GENERAL_KEY⟩, .Fungible 1000⟩],
        .BuyExecution ⟨.Concrete ⟨0, .X1 TEER_GENERAL_KEY⟩, .Fungible 1000⟩ .Unlimited],
       ⟨400000000, 262144⟩, Weight.zero⟩ =
      .ok ([.WithdrawAsset [⟨.Concrete ⟨0, .X1 TEER_GENERAL_KEY⟩, .Fungible 1000⟩],
            .BuyExecution ⟨.Concrete ⟨0, .X1 TEER_GENERAL_KEY⟩, .Fungible 1000⟩
              (.Limited ⟨400000000, 262144⟩)], Weight.zero) ∧
    TakeWeightCredit.should_execute
      ⟨⟨1, .X1 (.Parachain 2000)⟩,
       [.WithdrawAsset [⟨.Concrete ⟨0, .X1 TEER_GENERAL_KEY⟩, .Fungible 1000⟩],
        .BuyExecution ⟨.Concrete ⟨0, .X1 TEER_GENERAL_KEY⟩, .Fungible 1000⟩ .Unlimited],
       ⟨400000000, 262144⟩, Weight.zero⟩ = .error () :=
  c8_paid_execution_leaves_credit (fun _ _ _ => false)
    ⟨⟨1, .X1 (.Parachain 2000)⟩,
     [.WithdrawAsset [⟨.Concrete ⟨0, .X1 TEER_GENERAL_KEY⟩, .Fungible 1000⟩],
      .BuyExecution ⟨.Concrete ⟨0, .X1 TEER_GENERAL_KEY⟩, .Fungible 1000⟩ .Unlimited],
     ⟨400000000, 262144⟩, Weight.zero⟩
    [.WithdrawAsset [⟨.Concrete ⟨0, .X1 TEER_GENERAL_KEY⟩, .Fungible 1000⟩],
     .BuyExecution ⟨.Concrete ⟨0, .X1 TEER_GENERAL_KEY⟩, .Fungible 1000⟩
       (.Limited ⟨400000000, 262144⟩)]
    rfl rfl (by decide) rfl
